import Mathlib

/-!
Shallow embedding of the change_flare dynamic-DNS updater
(src/main.rs, src/core.rs, src/cloudflare/mod.rs).

The reconciliation loop, the Cloudflare provider and the configuration
construction are translated into pure Lean functions.  External
collaborators (the HTTP transport, the STUN client, the standard
library address parser and the process environment) are modelled as
explicit parameters: the outcome of each network call is an argument of
the function that performs it, and the environment is a record of the
three variables the code reads.
-/

/-- Embedding of Rust `std::net::IpAddr`: an IPv4 or IPv6 address.
Only equality of addresses matters to the reconciliation logic, so the
segments are plain naturals. -/
inductive IpAddr where
  | v4 (a b c d : Nat)
  | v6 (a b c d e f g h : Nat)
deriving DecidableEq

/-- Embedding of Rust `std::net::SocketAddr` as used by `check_ip`:
the externally observed address, of which `run` uses only `.ip()`. -/
structure SocketAddr where
  ip : IpAddr
  port : Nat
deriving DecidableEq

/-- Embedding of `CloudFlareRecord` (src/cloudflare/mod.rs). -/
structure CloudFlareRecord where
  content : IpAddr
  name : String
  record_type : String
  ttl : Nat
  proxied : Bool
  zone_id : String
  record_id : Option String
deriving DecidableEq

namespace CloudFlareRecord

/-- `Record::get_id` for `CloudFlareRecord`. -/
def get_id (r : CloudFlareRecord) : Option String := r.record_id

/-- `Record::get_name` for `CloudFlareRecord`. -/
def get_name (r : CloudFlareRecord) : String := r.name

/-- `Record::get_content` for `CloudFlareRecord`. -/
def get_content (r : CloudFlareRecord) : IpAddr := r.content

/-- `Record::update_content` for `CloudFlareRecord`: a copy of the
record with `content` replaced (`Self { content: new_content, ..self.clone() }`). -/
def update_content (r : CloudFlareRecord) (new_content : IpAddr) : CloudFlareRecord :=
  { r with content := new_content }

/-- Default `eq` of the `Record` trait (src/core.rs lines 78-82), which
`CloudFlareRecord` inherits: content, id and name are compared. -/
def eq (a b : CloudFlareRecord) : Bool :=
  (a.get_content == b.get_content)
    && (a.get_id == b.get_id)
    && (a.get_name == b.get_name)

end CloudFlareRecord

/-- The three environment variables read by `CloudFlareConfig::default`
(after `dotenvy` has merged the .env file into the process environment).
`none` models an unset variable. -/
structure Env where
  cloudflare_poll_rate_var : Option String
  cloudflare_api_key_var : Option String
  cloudflare_zone_id_var : Option String
deriving DecidableEq

/-- Embedding of `str::parse::<usize>().ok()` on the poll-rate
variable: the all-decimal-digits fragment, which is what the claims
exercise. -/
def parseUsize (s : String) : Option Nat :=
  if s.data ≠ [] ∧ s.data.all Char.isDigit then
    some (s.data.foldl (fun n c => n * 10 + (c.toNat - 48)) 0)
  else none

/-- Embedding of `CloudFlareConfig`. -/
structure CloudFlareConfig where
  poll_rate : Nat
  api_key : String
  zone_id : String
deriving DecidableEq

namespace CloudFlareConfig

/-- `CloudFlareConfig::default` (src/cloudflare/mod.rs lines 165-202):
poll_rate from the environment variable (parse failure or absence gives
300, unclamped), api_key and zone_id from the environment with empty
string as fallback. -/
def default (env : Env) : CloudFlareConfig :=
  { poll_rate := (env.cloudflare_poll_rate_var.bind parseUsize).getD 300,
    api_key := env.cloudflare_api_key_var.getD "",
    zone_id := env.cloudflare_zone_id_var.getD "" }

/-- `CloudFlareConfig::new` (src/cloudflare/mod.rs lines 204-223):
`poll_rate = poll_rate.max(60)`; an empty api_key argument is replaced
by the default (environment) api_key; zone_id is always the default
(environment) zone_id. -/
def new (env : Env) (poll_rate : Nat) (api_key : String) : CloudFlareConfig :=
  let poll_rate := Nat.max poll_rate 60
  let api_key := if api_key.isEmpty then (CloudFlareConfig.default env).api_key else api_key
  let zone_id := (CloudFlareConfig.default env).zone_id
  { poll_rate := poll_rate, api_key := api_key, zone_id := zone_id }

end CloudFlareConfig

/-- Embedding of `CloudFlareApi`: its configuration and the cached
record vector. -/
structure CloudFlareApi where
  config : CloudFlareConfig
  records : List CloudFlareRecord
deriving DecidableEq

/-- `CloudFlareApi::new` via `ApiTrait::new` (src/cloudflare/mod.rs
lines 22-27): builds the config and starts with an empty record cache. -/
def CloudFlareApi.new (env : Env) (poll_rate : Nat) (api_key : String) : CloudFlareApi :=
  { config := CloudFlareConfig.new env poll_rate api_key, records := [] }

/-- `CloudFlareApi::get_poll_rate`. -/
def CloudFlareApi.get_poll_rate (api : CloudFlareApi) : Nat := api.config.poll_rate

/-- One element of the parsed JSON `result` array
(`CloudflareResult`, src/cloudflare/mod.rs lines 264-273). -/
structure CloudflareResult where
  id : String
  name : String
  content : String
  rtype : String
  ttl : Nat
  proxied : Bool
  zone_id : String
deriving DecidableEq

/-- The parsed JSON body (`CloudflareResponse`). -/
structure CloudflareResponse where
  success : Bool
  result : List CloudflareResult
deriving DecidableEq

/-- The outcome of the fetch in `get_records`, up to JSON parsing: each
early-return failure arm of the source is one constructor, and a body
that parsed is `parsed` (its `success` field may still be false). -/
inductive FetchOutcome where
  | authHeaderInvalid
  | sendError
  | textError
  | jsonError
  | parsed (resp : CloudflareResponse)
deriving DecidableEq

/-- A fetch outcome the source treats as a failure: any early-return
arm, or a parsed body with `success = false`. -/
def FetchOutcome.isFailure : FetchOutcome → Bool
  | .parsed resp => !resp.success
  | _ => true

/-- Conversion of one fetched result row to a `CloudFlareRecord`, given
its parsed content address (the `Some(CloudFlareRecord { .. })` arm of
the `filter_map` closure in `get_records`). -/
def toManaged (r : CloudflareResult) (ip : IpAddr) : CloudFlareRecord :=
  { content := ip, name := r.name, record_type := r.rtype, ttl := r.ttl,
    proxied := r.proxied, zone_id := r.zone_id, record_id := some r.id }

/-- `CloudFlareApi::get_records` (src/cloudflare/mod.rs lines 29-106)
as a function of the prior cached records and the fetch outcome,
returning the new cached records (the method returns `&self.records`
after the possible assignment, so the returned value and the new state
coincide).  `parseIp` embeds the external `str::parse::<IpAddr>()`
used on the content of each record. -/
def get_records (parseIp : String → Option IpAddr)
    (prior : List CloudFlareRecord) (outcome : FetchOutcome) :
    List CloudFlareRecord :=
  match outcome with
  | .authHeaderInvalid => prior
  | .sendError => prior
  | .textError => prior
  | .jsonError => prior
  | .parsed resp =>
    if !resp.success then prior
    else
      resp.result.filterMap (fun r =>
        match parseIp r.content with
        | some ip => some (toManaged r ip)
        | none => none)

/-- The transport outcome of the PUT in `update_record`:
`ok` is a 2xx response, `err` is a send error or `error_for_status`
failure. -/
inductive UpdateOutcome where
  | ok
  | err
deriving DecidableEq

/-- `CloudFlareApi::update_record` (src/cloudflare/mod.rs lines
107-152) as a function of the submitted record and the transport
outcome: both match arms return `record.clone()`. -/
def update_record (record : CloudFlareRecord) (outcome : UpdateOutcome) :
    CloudFlareRecord :=
  match outcome with
  | .ok => record
  | .err => record

/-- The per-record body of the `for` loop in `Updater::run`
(src/core.rs lines 34-45): the list of candidate records passed to
`update_record` for this record (empty or a singleton). -/
def updatesFor (current_ip : IpAddr) (record : CloudFlareRecord) :
    List CloudFlareRecord :=
  let record_clone := record
  let record_clone :=
    if record.get_content ≠ current_ip
    then record_clone.update_content current_ip
    else record_clone
  if !(record_clone.eq record) then [record_clone] else []

/-- All update invocations of one pass over a snapshot, in snapshot
order. -/
def cycleUpdates (current_ip : IpAddr) (records : List CloudFlareRecord) :
    List CloudFlareRecord :=
  records.flatMap (updatesFor current_ip)

/-- Externally observable steps of one iteration of `Updater::run`. -/
inductive CycleEvent where
  | listFetch
  | update (candidate : CloudFlareRecord)
  | sleep (seconds : Nat)
deriving DecidableEq

/-- One iteration of the `loop` in `Updater::run` (src/core.rs lines
24-48), as a function of the resolution outcome (`check_ip`), the
fetch outcome and the current api state.  Returns the new state and
the events of the iteration in order.  When `check_ip` fails the
source logs and executes `continue`, which re-enters the loop at the
top: no fetch, no updates, and the `thread::sleep` at the bottom of
the loop body is skipped. -/
def runCycle (parseIp : String → Option IpAddr)
    (resolution : Option SocketAddr) (fetch : FetchOutcome)
    (api : CloudFlareApi) : CloudFlareApi × List CycleEvent :=
  match resolution with
  | none => (api, [])
  | some current_ip =>
    let records := get_records parseIp api.records fetch
    let api := { api with records := records }
    (api,
      CycleEvent.listFetch
        :: (cycleUpdates current_ip.ip records).map CycleEvent.update
        ++ [CycleEvent.sleep api.get_poll_rate])

/-- Embedding of `Updater<CloudFlareApi>`. -/
structure Updater where
  api : CloudFlareApi
deriving DecidableEq

/-- `Updater::new` (src/core.rs lines 18-22) instantiated at
`CloudFlareApi`. -/
def Updater.new (env : Env) (poll_rate : Nat) (api_key : String) : Updater :=
  { api := CloudFlareApi.new env poll_rate api_key }

/-- The updater constructed in `main` (src/main.rs line 7):
`Updater::<CloudFlareApi>::new(Default::default(), Default::default())`,
i.e. poll_rate 0 and empty api_key. -/
def main_updater (env : Env) : Updater := Updater.new env 0 ""

/-! Concrete fixtures used by witnesses and counterexamples. -/

/-- A concrete record, as in the worked example of the spec. -/
def rec0 : CloudFlareRecord :=
  { content := IpAddr.v4 203 0 113 5, name := "home.example.com",
    record_type := "A", ttl := 1, proxied := false, zone_id := "z1",
    record_id := some "r1" }

/-- A concrete resolved address distinct from the content of rec0. -/
def ip9 : IpAddr := IpAddr.v4 203 0 113 9

/-- A concrete embedding of the external address parser that parses
nothing. -/
def parse0 : String → Option IpAddr := fun _ => none

/-- A concrete embedding of the external address parser that parses
exactly one dotted quad. -/
def parse1 : String → Option IpAddr :=
  fun s => if s = "203.0.113.9" then some ip9 else none

/-- A concrete environment. -/
def env0 : Env :=
  { cloudflare_poll_rate_var := some "300",
    cloudflare_api_key_var := some "k",
    cloudflare_zone_id_var := some "z" }

/-- A concrete api state. -/
def api0 : CloudFlareApi := CloudFlareApi.new env0 60 "key"

/-! Claims. -/

/-- C1: for every record and resolved address X, if the content of the
record differs from X the cycle invokes exactly one update for that
record, with a candidate identical to the original in every field
except content, which equals X; if the content equals X the cycle
invokes zero updates for that record. -/
theorem reconcile_one_update (X : IpAddr) (r : CloudFlareRecord) :
    (r.content ≠ X →
      updatesFor X r = [r.update_content X] ∧
      (r.update_content X).content = X ∧
      (r.update_content X).record_id = r.record_id ∧
      (r.update_content X).name = r.name ∧
      (r.update_content X).record_type = r.record_type ∧
      (r.update_content X).ttl = r.ttl ∧
      (r.update_content X).proxied = r.proxied ∧
      (r.update_content X).zone_id = r.zone_id) ∧
    (r.content = X → updatesFor X r = []) := by
  constructor
  · intro h
    refine ⟨?_, rfl, rfl, rfl, rfl, rfl, rfl, rfl⟩
    simp [updatesFor, CloudFlareRecord.eq, CloudFlareRecord.get_content,
      CloudFlareRecord.get_id, CloudFlareRecord.get_name,
      CloudFlareRecord.update_content, h, Ne.symm h]
  · intro h
    simp [updatesFor, CloudFlareRecord.eq, CloudFlareRecord.get_content,
      CloudFlareRecord.get_id, CloudFlareRecord.get_name, h]

/-- Witness for C1 at a concrete record and two concrete addresses. -/
theorem reconcile_one_update_witness :
    updatesFor ip9 rec0 = [rec0.update_content ip9] ∧
    updatesFor rec0.content rec0 = [] :=
  ⟨((reconcile_one_update ip9 rec0).1 (by decide)).1,
   (reconcile_one_update rec0.content rec0).2 rfl⟩

/-- Counterexample to C2: in a cycle whose resolution fails, the code
executes continue, which skips the sleep at the bottom of the loop
body — at this concrete state the iteration emits no events at all,
in particular no sleep of poll_interval (= 60) seconds. -/
theorem resolution_failure_no_sleep_cex :
    (runCycle parse0 none FetchOutcome.sendError api0).2 = [] ∧
    CycleEvent.sleep api0.get_poll_rate ∉
      (runCycle parse0 none FetchOutcome.sendError api0).2 := by
  refine ⟨rfl, ?_⟩
  intro h
  simp [runCycle] at h

/-- C2 (amended): in a cycle whose resolution fails, the loop performs
no record work (no list fetch, no updates), does not sleep, leaves the
state unchanged, and immediately retries resolution. -/
theorem resolution_failure_no_work (p : String → Option IpAddr)
    (f : FetchOutcome) (api : CloudFlareApi) :
    runCycle p none f api = (api, []) := rfl

/-- C3: the equivalence predicate used for change detection holds iff
content, record_id and name agree; records differing only in ttl,
proxied, record_type or zone_id are always equivalent. -/
theorem record_eq_iff (a b : CloudFlareRecord) :
    (CloudFlareRecord.eq a b = true ↔
      a.content = b.content ∧ a.record_id = b.record_id ∧ a.name = b.name) ∧
    ∀ (t : Nat) (px : Bool) (rt zid : String),
      CloudFlareRecord.eq a
        { a with ttl := t, proxied := px, record_type := rt, zone_id := zid }
        = true := by
  constructor
  · simp [CloudFlareRecord.eq, CloudFlareRecord.get_content,
      CloudFlareRecord.get_id, CloudFlareRecord.get_name, and_assoc]
  · intro t px rt zid
    simp [CloudFlareRecord.eq, CloudFlareRecord.get_content,
      CloudFlareRecord.get_id, CloudFlareRecord.get_name]

/-- Witness for C3 at a concrete pair differing only in the four
ignored fields. -/
theorem record_eq_iff_witness :
    CloudFlareRecord.eq rec0
      { rec0 with ttl := 5, proxied := true, record_type := "AAAA", zone_id := "z9" } = true :=
  (record_eq_iff rec0 rec0).2 5 true "AAAA" "z9"

/-- Counterexample to C4: the poll interval is not resolved from the
constructor argument with an environment fallback.  With the
environment variable set to 300, an argument of 0 (the value main
passes) yields 60, not the environment value; and an explicit argument
of 30 is not used verbatim either. -/
theorem config_resolution_cex :
    (CloudFlareConfig.new env0 0 "key").poll_rate
        ≠ (CloudFlareConfig.default env0).poll_rate ∧
    (CloudFlareConfig.new env0 30 "key").poll_rate ≠ 30 := by
  constructor <;> decide

/-- C4 (amended): the API credential is resolved from the constructor
argument, falling back to the environment-sourced value only when the
argument is empty; the poll interval is always the constructor
argument clamped up to 60 and the environment value is never used for
it; the zone identifier has no constructor argument and is always the
environment-sourced value. -/
theorem config_resolution_amended (env : Env) (pr : Nat) (key : String) :
    (key.isEmpty = true →
      (CloudFlareConfig.new env pr key).api_key
        = (CloudFlareConfig.default env).api_key) ∧
    (key.isEmpty = false →
      (CloudFlareConfig.new env pr key).api_key = key) ∧
    (CloudFlareConfig.new env pr key).poll_rate = Nat.max pr 60 ∧
    (CloudFlareConfig.new env pr key).zone_id
      = (CloudFlareConfig.default env).zone_id := by
  refine ⟨fun h => ?_, fun h => ?_, rfl, rfl⟩ <;>
    simp [CloudFlareConfig.new, h]

/-- Witness for C4 (amended) at a concrete environment and both an
empty and a non-empty credential argument. -/
theorem config_resolution_amended_witness :
    (CloudFlareConfig.new env0 0 "").api_key
        = (CloudFlareConfig.default env0).api_key ∧
    (CloudFlareConfig.new env0 0 "key").api_key = "key" :=
  ⟨(config_resolution_amended env0 0 "").1 rfl,
   (config_resolution_amended env0 0 "key").2.1 rfl⟩

/-- Counterexample to C5: the environment-sourced default construction
path does not clamp — with the poll-rate variable set to 10 it
produces a configuration whose poll interval is 10, below 60. -/
theorem poll_floor_cex :
    (CloudFlareConfig.default
      { cloudflare_poll_rate_var := some "10",
        cloudflare_api_key_var := none,
        cloudflare_zone_id_var := none }).poll_rate = 10 ∧
    10 < 60 := by
  constructor <;> decide

/-- C5 (amended): every configuration built through new has poll
interval at least 60 — an argument below 60 is clamped to exactly 60
and an argument at least 60 is passed through unchanged — but the
environment-sourced default path does not clamp, so it is not covered
by the floor. -/
theorem poll_floor_amended (env : Env) (pr : Nat) (key : String) :
    60 ≤ (CloudFlareConfig.new env pr key).poll_rate ∧
    (pr < 60 → (CloudFlareConfig.new env pr key).poll_rate = 60) ∧
    (60 ≤ pr → (CloudFlareConfig.new env pr key).poll_rate = pr) := by
  refine ⟨?_, fun h => ?_, fun h => ?_⟩ <;>
    simp [CloudFlareConfig.new] <;> omega

/-- Witness for C5 (amended) at a concrete environment with one
argument below and one above the floor. -/
theorem poll_floor_amended_witness :
    (CloudFlareConfig.new env0 30 "key").poll_rate = 60 ∧
    (CloudFlareConfig.new env0 100 "key").poll_rate = 100 :=
  ⟨(poll_floor_amended env0 30 "key").2.1 (by decide),
   (poll_floor_amended env0 100 "key").2.2 (by decide)⟩

/-- C6: every failing fetch — invalid auth header, transport error,
text extraction error, JSON parse failure, or a parsed body with
success false — leaves the stored record set unchanged and returns
that prior value; no error propagates past the provider boundary. -/
theorem fetch_failure_preserves (p : String → Option IpAddr)
    (prior : List CloudFlareRecord) (o : FetchOutcome)
    (h : o.isFailure = true) :
    get_records p prior o = prior := by
  cases o <;> simp_all [get_records, FetchOutcome.isFailure]

/-- Witness for C6: a transport failure on the first call returns the
empty initial set, and a success-false body preserves a non-empty
prior set. -/
theorem fetch_failure_preserves_witness :
    get_records parse0 (CloudFlareApi.new env0 60 "key").records
        FetchOutcome.sendError = [] ∧
    get_records parse0 [rec0]
        (FetchOutcome.parsed { success := false, result := [] }) = [rec0] :=
  ⟨fetch_failure_preserves parse0 [] FetchOutcome.sendError rfl,
   fetch_failure_preserves parse0 [rec0]
     (FetchOutcome.parsed { success := false, result := [] }) rfl⟩

/-- C7: update_record returns the input record on every outcome, so
the return value of a failed call equals that of a successful one and
callers cannot distinguish them by return value. -/
theorem update_return_input (r : CloudFlareRecord) (o : UpdateOutcome) :
    update_record r o = r ∧
    update_record r UpdateOutcome.err = update_record r UpdateOutcome.ok := by
  cases o <;> exact ⟨rfl, rfl⟩

/-- C8: after a successful fetch the snapshot consists of exactly the
conversions of the result rows whose content parses as an address —
rows with unparseable content are dropped, rows with parseable content
are kept, and an unparseable row is never fatal to the fetch. -/
theorem fetch_partial_success (p : String → Option IpAddr)
    (prior : List CloudFlareRecord) (resp : CloudflareResponse)
    (h : resp.success = true) :
    ∀ m, m ∈ get_records p prior (FetchOutcome.parsed resp) ↔
      ∃ r ∈ resp.result, ∃ ip, p r.content = some ip ∧ m = toManaged r ip := by
  intro m
  have hr : get_records p prior (FetchOutcome.parsed resp)
      = resp.result.filterMap (fun r =>
          match p r.content with
          | some ip => some (toManaged r ip)
          | none => none) := by
    simp [get_records, h]
  rw [hr, List.mem_filterMap]
  constructor
  · rintro ⟨r, hmem, hf⟩
    cases hp : p r.content with
    | none => rw [hp] at hf; cases hf
    | some ip =>
      rw [hp] at hf
      refine ⟨r, hmem, ip, hp, ?_⟩
      cases hf
      rfl
  · rintro ⟨r, hmem, ip, hp, rfl⟩
    exact ⟨r, hmem, by rw [hp]⟩

/-- Witness for C8: a successful body with one parseable row and one
unparseable row yields exactly the converted parseable row. -/
theorem fetch_partial_success_witness :
    toManaged
        { id := "r1", name := "home.example.com", content := "203.0.113.9",
          rtype := "A", ttl := 1, proxied := false, zone_id := "z1" } ip9
      ∈ get_records parse1 []
        (FetchOutcome.parsed
          { success := true,
            result :=
              [{ id := "r1", name := "home.example.com",
                 content := "203.0.113.9", rtype := "A", ttl := 1,
                 proxied := false, zone_id := "z1" },
               { id := "r2", name := "bad.example.com", content := "oops",
                 rtype := "A", ttl := 1, proxied := false,
                 zone_id := "z1" }] }) :=
  (fetch_partial_success parse1 []
      { success := true,
        result :=
          [{ id := "r1", name := "home.example.com",
             content := "203.0.113.9", rtype := "A", ttl := 1,
             proxied := false, zone_id := "z1" },
           { id := "r2", name := "bad.example.com", content := "oops",
             rtype := "A", ttl := 1, proxied := false,
             zone_id := "z1" }] } rfl _).2
    ⟨{ id := "r1", name := "home.example.com", content := "203.0.113.9",
       rtype := "A", ttl := 1, proxied := false, zone_id := "z1" },
     by simp, ip9, by simp [parse1], rfl⟩

/-- C9: an empty credential argument makes the credential fall back to
the environment-sourced default, while a non-empty argument is used
verbatim, whatever the environment holds. -/
theorem credential_fallback (env : Env) (pr : Nat) (key : String) :
    (key.isEmpty = true →
      (CloudFlareConfig.new env pr key).api_key
        = (CloudFlareConfig.default env).api_key) ∧
    (key.isEmpty = false →
      (CloudFlareConfig.new env pr key).api_key = key) := by
  refine ⟨fun h => ?_, fun h => ?_⟩ <;> simp [CloudFlareConfig.new, h]

/-- Witness for C9 at a concrete environment whose credential variable
is "k": empty argument gives "k", argument "key" gives "key". -/
theorem credential_fallback_witness :
    (CloudFlareConfig.new env0 60 "").api_key = "k" ∧
    (CloudFlareConfig.new env0 60 "key").api_key = "key" :=
  ⟨(credential_fallback env0 60 "").1 rfl,
   (credential_fallback env0 60 "key").2 rfl⟩

/-- C10: on the entry-point path of main (poll_rate argument 0, empty
credential) the effective poll interval is exactly 60 for every
environment, so the poll-rate environment variable never influences
get_poll_rate or the per-cycle sleep duration. -/
theorem main_poll_rate_fixed (env : Env) :
    (main_updater env).api.get_poll_rate = 60 ∧
    ∀ (p : String → Option IpAddr) (addr : SocketAddr) (f : FetchOutcome),
      CycleEvent.sleep 60 ∈ (runCycle p (some addr) f (main_updater env).api).2 := by
  constructor
  · rfl
  · intro p addr f
    simp [runCycle, main_updater, Updater.new, CloudFlareApi.new,
      CloudFlareApi.get_poll_rate, CloudFlareConfig.new]
